import Mathlib

/-!
# Verification of the blkmirror block driver

Shallow embedding of the mirrored-write block driver (block/blkmirror.c).
The driver duplicates every write/discard to a source and a target backend,
merges the two asynchronous completions into a single caller callback, and
manages the transplant of backing-file references between source, mirror
and target at lifecycle points (open, rebind, backing-file change, close).

Machine integers are modelled as `Int` (error codes are small negatives such
as -EINVAL = -22, far from any overflow boundary).  C strings are modelled
as `List Char`.  Block-device pointers are modelled as `Nat` identifiers
into an explicit heap `Nat → BlockDriverState`; a NULL-able pointer field
is an `Option Nat`.
-/

namespace Blkmirror

/-! ## The Dual Completion Record (struct DupAIOCB)

`DupAIOCB` carries the per-operation fan-out state from blkmirror.c:
a pending `count` starting at 2, a `canceled` flag, the sticky first
error `ret`, and one in-flight sub-operation handle per slot (`aio0`,
`aio1`, modelling `aios[0].aiocb` / `aios[1].aiocb` being non-NULL).

Three instrumentation fields that are not in the C struct record the
externally observable behaviour: `released` counts calls to
`qemu_aio_release(dcb)` (resource-tracking instrumentation), `cbResults`
records every invocation of the caller's completion callback
`dcb->common.cb` together with the result value passed to it, and
`assertOk` records whether the `assert(dcb->count > 0)` at the top of
`blkmirror_aio_cb` has held on every entry so far.  -/

structure DupAIOCB where
  count : Int
  canceled : Bool
  ret : Int
  aio0 : Bool
  aio1 : Bool
  released : Nat
  cbResults : List Int
  assertOk : Bool
deriving Repr, DecidableEq

/-- `blkmirror_aio_cb(opaque, ret)` — the per-slot completion path.
`slot` identifies which of the two `SingleAIOCB`s completed (`false` for
`aios[0]`, `true` for `aios[1]`); `r` is the sub-operation's result.
Faithful to the C body: clear the slot's in-flight handle, check the
assertion, record the sticky first error, decrement the count, and when
the count reaches zero invoke the caller's callback with the merged
result and release the record unless `canceled` is set. -/
def blkmirror_aio_cb (slot : Bool) (r : Int) (d : DupAIOCB) : DupAIOCB :=
  let d := if slot then { d with aio1 := false } else { d with aio0 := false }
  let d := { d with assertOk := d.assertOk && decide (0 < d.count) }
  let d := if r < 0 ∧ d.ret = 0 then { d with ret := r } else d
  let d := { d with count := d.count - 1 }
  if d.count = 0 then
    let d := { d with cbResults := d.cbResults ++ [d.ret] }
    if d.canceled then d else { d with released := d.released + 1 }
  else d

/-- `dup_aio_cancel(acb)` — sets the `canceled` flag, requests cancellation
of every slot that still holds an in-flight handle (those cancellation
requests drive the slot's own completion path, modelled as separate later
events in a trace), and then releases the record itself. -/
def dup_aio_cancel (d : DupAIOCB) : DupAIOCB :=
  { d with canceled := true, released := d.released + 1 }

/-- `dup_aio_get(bs, cb, opaque)` — fresh record: count 2, not canceled,
no sticky error yet.  The two slot handles are stored by the caller
(`blkmirror_aio_writev` / `blkmirror_aio_discard`) right afterwards. -/
def dup_aio_get : DupAIOCB :=
  { count := 2, canceled := false, ret := 0, aio0 := false, aio1 := false,
    released := 0, cbResults := [], assertOk := true }

/-- State of the record after `blkmirror_aio_writev` or
`blkmirror_aio_discard` has issued both sub-operations and stored the two
in-flight handles into `aios[0].aiocb` and `aios[1].aiocb`. -/
def dup_issue : DupAIOCB :=
  { dup_aio_get with aio0 := true, aio1 := true }

/-- One externally driven event on an in-flight dual operation: either a
sub-operation completion (delivered by the backend, possibly driven by a
cancellation request) or the client canceling the whole operation. -/
inductive AioEvent where
  | cb (slot : Bool) (r : Int)
  | cancel
deriving Repr, DecidableEq

/-- Event dispatch: a slot completion runs `blkmirror_aio_cb`, a client
cancellation runs `dup_aio_cancel`. -/
def aioStep (d : DupAIOCB) : AioEvent → DupAIOCB
  | .cb s r => blkmirror_aio_cb s r d
  | .cancel => dup_aio_cancel d

/-- Run a trace of events starting from the just-issued record. -/
def aioRun (t : List AioEvent) : DupAIOCB :=
  t.foldl aioStep dup_issue

/-- All admissible event interleavings for one issued dual operation, with
slot `s` completing first with result `r` and slot `!s` completing second
with result `r2`.  By the AIO backend contract each sub-operation's
completion callback fires exactly once; the client may cancel at most
once, and only while it still holds the handle, i.e. before the merged
completion (the second slot completion) has fired, since the record is
handed back at that point.  A cancellation request on a still-pending
slot drives that slot's completion (synchronously during the cancel call
or later), which is that slot's `cb` event occurring after `cancel`. -/
def dualTraces (s : Bool) (r r2 : Int) : List (List AioEvent) :=
  [[.cb s r, .cb (!s) r2],
   [.cancel, .cb s r, .cb (!s) r2],
   [.cb s r, .cancel, .cb (!s) r2]]

/-- The merged result of the two sub-operation results taken in completion
order: the first error (sticky), else the second error, else success. -/
def mergeRet (r r2 : Int) : Int :=
  if r < 0 then r else if r2 < 0 then r2 else 0

/-- Discriminator for slot-completion events. -/
def AioEvent.isCb : AioEvent → Bool
  | .cb _ _ => true
  | .cancel => false

/-! ## Block device heap (BlockDriverState graph)

Only the fields of `BlockDriverState` the driver touches are modelled:
`backing_hd` (the nominal backing reference), `file` (the target handle
opened by `blkmirror_open`), `opaque` (where `blkmirror_rebind` stores the
source handle), `keep_read_only`, and the reported backing metadata
buffers `backing_file` / `backing_format`. -/

structure BlockDriverState where
  backing_hd : Option Nat
  file : Option Nat
  opq : Option Nat
  keep_read_only : Bool
  backing_file : List Char
  backing_format : List Char
deriving Repr, DecidableEq

/-- The device heap: every `Nat` identifier maps to a device state. -/
def Heap : Type := Nat → BlockDriverState

/-- Pointer write: replace the state of device `i`. -/
def hupd (h : Heap) (i : Nat) (b : BlockDriverState) : Heap :=
  fun j => if j = i then b else h j

/-- `blkmirror_rebind(bs)` — invoked once the external append step has put
the source device into the mirror's nominal backing slot.  Moves the
source into `bs->opaque`, hoists the source's own backing reference into
`bs->backing_hd`, marks that hoisted backing device
read-only-forbidding-commit when it exists, and shares it as the target's
backing reference.  The C code dereferences `bs->backing_hd` and
`bs->file` unconditionally; the `none` fallbacks keep the definition
total and are unreachable under the driver's preconditions. -/
def blkmirror_rebind (h : Heap) (bs : Nat) : Heap :=
  match (h bs).backing_hd with
  | none => h
  | some source =>
    let sb := (h source).backing_hd
    let h1 := hupd h bs { h bs with opq := some source, backing_hd := sb }
    let h2 := match sb with
      | none => h1
      | some b => hupd h1 b { h1 b with keep_read_only := true }
    match (h2 bs).file with
    | none => h2
    | some f => hupd h2 f { h2 f with backing_hd := sb }

/-- `blkmirror_close(bs)` — detaches the source's and the target's backing
references; the freeing of the source (`bdrv_delete`) and the generic
teardown of `bs->file` and `bs->backing_hd` happen outside this model. -/
def blkmirror_close (h : Heap) (bs : Nat) : Heap :=
  match (h bs).opq with
  | none => h
  | some source =>
    let h1 := hupd h source { h source with backing_hd := none }
    match (h1 bs).file with
    | none => h1
    | some f => hupd h1 f { h1 f with backing_hd := none }

/-- Observable calls made by `blkmirror_change_backing_file`, in program
order: `chg dev` is a generic-layer `bdrv_change_backing_file` call on
device `dev`; `setMirrorMeta` is the final `pstrcpy` pair that overwrites
the mirror's own reported `backing_file`/`backing_format`. -/
inductive ChgEvent where
  | chg (dev : Nat)
  | setMirrorMeta
deriving Repr, DecidableEq

/-- Modelled from the spec: the generic block layer's
`change-backing-file(handle, path, format) → status` collaborator
contract (the implementation lives in the generic layer, outside this
fragment).  `oracle dev` is the status it returns for device `dev`; on
success the device's reported backing metadata is overwritten with the
new path/format, on failure (negative status) the device is untouched.
A NULL path/format is recorded as the empty string. -/
def bdrv_change_backing_file (oracle : Nat → Int) (h : Heap) (d : Nat)
    (backing_file backing_fmt : Option (List Char)) : Int × Heap :=
  if oracle d < 0 then (oracle d, h)
  else (oracle d,
    hupd h d { h d with backing_file := backing_file.getD [],
                        backing_format := backing_fmt.getD [] })

/-- `blkmirror_change_backing_file(bs, backing_file, backing_fmt)` —
re-syncs `source->backing_hd` and `bs->file->backing_hd` from the
mirror's nominal backing reference, applies the generic change to the
target first, returning its error immediately on failure, then to the
source, returning its error on failure, and only on full success records
the new path/format as the mirror's own reported backing metadata
(`pstrcpy` with the GNU `?\x3a ""` default for NULL).  Also returns the
trace of calls made, in order. -/
def blkmirror_change_backing_file (oracle : Nat → Int) (h : Heap) (bs : Nat)
    (backing_file backing_fmt : Option (List Char)) : Int × Heap × List ChgEvent :=
  match (h bs).opq with
  | none => (0, h, [])
  | some source =>
    let h1 := hupd h source { h source with backing_hd := (h bs).backing_hd }
    match (h1 bs).file with
    | none => (0, h1, [])
    | some f =>
      let h2 := hupd h1 f { h1 f with backing_hd := (h1 source).backing_hd }
      let r1 := bdrv_change_backing_file oracle h2 f backing_file backing_fmt
      if r1.1 < 0 then (r1.1, r1.2, [ChgEvent.chg f])
      else
        let r2 := bdrv_change_backing_file oracle r1.2 source backing_file backing_fmt
        if r2.1 < 0 then (r2.1, r2.2, [ChgEvent.chg f, ChgEvent.chg source])
        else
          (0, hupd r2.2 bs { r2.2 bs with backing_file := backing_file.getD [],
                                          backing_format := backing_fmt.getD [] },
           [ChgEvent.chg f, ChgEvent.chg source, ChgEvent.setMirrorMeta])

/-! ## Facade routing

For the read/flush/metadata paths only the identity of the backend device
each generic-layer call touches matters; each operation is modelled by
the list of (device, action) accesses it performs. -/

inductive Action where
  | flush
  | getlength
  | is_allocated (sector_num nb_sectors : Int)
  | readv (sector_num nb_sectors : Int)
deriving Repr, DecidableEq

/-- Generic-layer flush: touches exactly its argument device. -/
def bdrv_co_flush (d : Nat) : List (Nat × Action) := [(d, Action.flush)]

/-- Generic-layer length query: touches exactly its argument device. -/
def bdrv_getlength (d : Nat) : List (Nat × Action) := [(d, Action.getlength)]

/-- Generic-layer allocation query: touches exactly its argument device. -/
def bdrv_is_allocated (d : Nat) (sector_num nb_sectors : Int) : List (Nat × Action) :=
  [(d, Action.is_allocated sector_num nb_sectors)]

/-- Generic-layer asynchronous read: touches exactly its argument device. -/
def bdrv_aio_readv (d : Nat) (sector_num nb_sectors : Int) : List (Nat × Action) :=
  [(d, Action.readv sector_num nb_sectors)]

/-- `blkmirror_co_flush(bs)` — delegates to the source stored in
`bs->opaque`. -/
def blkmirror_co_flush (h : Heap) (bs : Nat) : List (Nat × Action) :=
  match (h bs).opq with
  | some source => bdrv_co_flush source
  | none => []

/-- `blkmirror_getlength(bs)` — delegates to the target `bs->file`. -/
def blkmirror_getlength (h : Heap) (bs : Nat) : List (Nat × Action) :=
  match (h bs).file with
  | some f => bdrv_getlength f
  | none => []

/-- `blkmirror_co_is_allocated(bs, sector_num, nb_sectors, pnum)` —
delegates to the target `bs->file`. -/
def blkmirror_co_is_allocated (h : Heap) (bs : Nat)
    (sector_num nb_sectors : Int) : List (Nat × Action) :=
  match (h bs).file with
  | some f => bdrv_is_allocated f sector_num nb_sectors
  | none => []

/-- `blkmirror_aio_readv(bs, sector_num, qiov, nb_sectors, cb, opaque)` —
delegates to the source stored in `bs->opaque`. -/
def blkmirror_aio_readv (h : Heap) (bs : Nat)
    (sector_num nb_sectors : Int) : List (Nat × Action) :=
  match (h bs).opq with
  | some source => bdrv_aio_readv source sector_num nb_sectors
  | none => []

/-! ## Opening the driver (blkmirror_open) -/

/-- `strstart(s, pfx, &rest)` from the QEMU utility library: when `pfx`
leads `s`, yields the remainder after the prefix. -/
def strstart (s pfx : List Char) : Option (List Char) :=
  if pfx.isPrefixOf s then some (s.drop pfx.length) else none

/-- The open flags the driver manipulates: the three bits it forces on
the target (`BDRV_O_NO_BACKING`, `BDRV_O_NO_FLUSH`, `BDRV_O_CACHE_WB`),
plus the remaining caller-supplied bits passed through unchanged. -/
structure OpenFlags where
  no_backing : Bool
  no_flush : Bool
  cache_wb : Bool
  rest : Nat
deriving Repr, DecidableEq

/-- Outcome of `blkmirror_open`: the returned status, the parameter named
by a `qerror_report(QERR_INVALID_PARAMETER_VALUE, ...)` if one was
issued, whether `bs->file` was assigned a fresh device (`bdrv_new`),
whether that target device ended up opened, and the flags passed to the
generic open when it was reached. -/
structure OpenResult where
  ret : Int
  err_param : Option (List Char)
  file_assigned : Bool
  target_opened : Bool
  target_flags : Option OpenFlags
deriving Repr, DecidableEq

/-- `blkmirror_open(bs, filename, flags)` — parses the
`blkmirror:[format:]path` descriptor and opens the target.  The format
lookup `bdrv_find_whitelisted_format` is modelled by membership in a
whitelist of format names; the generic `bdrv_open` is modelled from the
spec's collaborator contract (`open(path, flags, format) → handle|error`,
a construction-time error unwinding inside the generic layer so that a
failed open yields no opened handle): `openOracle path` is its status.
Missing `blkmirror:` lead-in returns -EINVAL (-22) before anything else;
an unknown format reports the offending "format" option and returns
-EINVAL before the target device is created. -/
def blkmirror_open (whitelist : List (List Char)) (openOracle : List Char → Int)
    (flags : OpenFlags) (filename : List Char) : OpenResult :=
  match strstart filename ("blkmirror:".toList) with
  | none => { ret := -22, err_param := none, file_assigned := false,
              target_opened := false, target_flags := none }
  | some fn =>
    let fmtPart := fn.takeWhile (· != ':')
    let restPart := fn.dropWhile (· != ':')
    let tflags := { flags with no_backing := true, no_flush := true, cache_wb := true }
    if restPart = [] then
      let r := openOracle fn
      { ret := r, err_param := none, file_assigned := true,
        target_opened := decide (0 ≤ r), target_flags := some tflags }
    else if fmtPart ∈ whitelist then
      let r := openOracle restPart.tail
      { ret := r, err_param := none, file_assigned := true,
        target_opened := decide (0 ≤ r), target_flags := some tflags }
    else
      { ret := -22, err_param := some ("format".toList), file_assigned := false,
        target_opened := false, target_flags := none }

/-- Concrete four-device heap for counterexamples: device 0 is the mirror
(`bs`), 1 the source sitting in the mirror's nominal backing slot, 2 the
target in `bs->file`, 3 the source's original backing device. -/
def rebindExampleHeap : Heap := fun i =>
  if i = 0 then ⟨some 1, some 2, none, false, [], []⟩
  else if i = 1 then ⟨some 3, none, none, false, [], []⟩
  else ⟨none, none, none, false, [], []⟩


/-! ## Evaluation lemmas for the completion combinator -/

lemma cb_first (s : Bool) (r : Int) (c : Bool) (a0 a1 : Bool) (rl : Nat) :
    blkmirror_aio_cb s r ⟨2, c, 0, a0, a1, rl, [], true⟩ =
      ⟨1, c, if r < 0 then r else 0, if s then a0 else false, if s then false else a1,
        rl, [], true⟩ := by
  cases s <;> simp [blkmirror_aio_cb] <;> split_ifs <;> simp_all

lemma cb_second (s : Bool) (r2 q : Int) (c : Bool) (a0 a1 : Bool) (rl : Nat) :
    blkmirror_aio_cb s r2 ⟨1, c, q, a0, a1, rl, [], true⟩ =
      ⟨0, c, if r2 < 0 ∧ q = 0 then r2 else q, if s then a0 else false, if s then false else a1,
        if c then rl else rl + 1, [if r2 < 0 ∧ q = 0 then r2 else q], true⟩ := by
  cases s <;> cases c <;> simp [blkmirror_aio_cb] <;> split_ifs <;> simp_all

lemma merge_of_ifs (r r2 : Int) :
    (if r2 < 0 ∧ (if r < 0 then r else 0) = 0 then r2 else (if r < 0 then r else 0))
      = mergeRet r r2 := by
  unfold mergeRet; split_ifs <;> omega

lemma run_shape1 (s : Bool) (r r2 : Int) :
    aioRun [.cb s r, .cb (!s) r2] =
      ⟨0, false, mergeRet r r2, false, false, 1, [mergeRet r r2], true⟩ := by
  show blkmirror_aio_cb (!s) r2 (blkmirror_aio_cb s r ⟨2, false, 0, true, true, 0, [], true⟩) = _
  rw [cb_first, cb_second, merge_of_ifs]
  cases s <;> simp

lemma run_shape2 (s : Bool) (r r2 : Int) :
    aioRun [.cancel, .cb s r, .cb (!s) r2] =
      ⟨0, true, mergeRet r r2, false, false, 1, [mergeRet r r2], true⟩ := by
  show blkmirror_aio_cb (!s) r2 (blkmirror_aio_cb s r ⟨2, true, 0, true, true, 1, [], true⟩) = _
  rw [cb_first, cb_second, merge_of_ifs]
  cases s <;> simp

lemma run_shape3 (s : Bool) (r r2 : Int) :
    aioRun [.cb s r, .cancel, .cb (!s) r2] =
      ⟨0, true, mergeRet r r2, false, false, 1, [mergeRet r r2], true⟩ := by
  show blkmirror_aio_cb (!s) r2
      (dup_aio_cancel (blkmirror_aio_cb s r ⟨2, false, 0, true, true, 0, [], true⟩)) = _
  rw [cb_first]
  show blkmirror_aio_cb (!s) r2
      ⟨1, true, if r < 0 then r else 0, if s then true else false, if s then false else true,
        1, [], true⟩ = _
  rw [cb_second, merge_of_ifs]
  cases s <;> simp

lemma run_nil : aioRun [] = ⟨2, false, 0, true, true, 0, [], true⟩ := rfl

lemma run_cb1 (s : Bool) (r : Int) :
    aioRun [.cb s r] =
      ⟨1, false, if r < 0 then r else 0, if s then true else false, if s then false else true,
        0, [], true⟩ := by
  show blkmirror_aio_cb s r ⟨2, false, 0, true, true, 0, [], true⟩ = _
  rw [cb_first]

lemma run_cancel : aioRun [.cancel] = ⟨2, true, 0, true, true, 1, [], true⟩ := rfl

lemma run_cancel_cb (s : Bool) (r : Int) :
    aioRun [.cancel, .cb s r] =
      ⟨1, true, if r < 0 then r else 0, if s then true else false, if s then false else true,
        1, [], true⟩ := by
  show blkmirror_aio_cb s r ⟨2, true, 0, true, true, 1, [], true⟩ = _
  rw [cb_first]

lemma run_cb_cancel (s : Bool) (r : Int) :
    aioRun [.cb s r, .cancel] =
      ⟨1, true, if r < 0 then r else 0, if s then true else false, if s then false else true,
        1, [], true⟩ := by
  show dup_aio_cancel (blkmirror_aio_cb s r ⟨2, false, 0, true, true, 0, [], true⟩) = _
  rw [cb_first]
  rfl

/-! ## Claim theorems for the completion combinator -/

/-- C1: for every write or discard issued through the mirror facade and
every admissible interleaving of the two backend sub-completions (with or
without a client cancellation), the caller's completion callback is
invoked exactly once, and it is never invoked in a strict prefix of the
trace, i.e. never before both backend sub-operations have reached a
terminal state. -/
theorem callback_exactly_once_after_both (s : Bool) (r r2 : Int) (t : List AioEvent)
    (ht : t ∈ dualTraces s r r2) :
    (aioRun t).cbResults.length = 1 ∧
    ∀ n, n < t.length → (aioRun (List.take n t)).cbResults = [] := by
  simp only [dualTraces, List.mem_cons, List.not_mem_nil, or_false] at ht
  rcases ht with rfl | rfl | rfl
  · refine ⟨by rw [run_shape1]; rfl, ?_⟩
    intro n hn
    simp only [List.length_cons, List.length_nil] at hn
    interval_cases n <;> simp [List.take, run_nil, run_cb1]
  · refine ⟨by rw [run_shape2]; rfl, ?_⟩
    intro n hn
    simp only [List.length_cons, List.length_nil] at hn
    interval_cases n <;> simp [List.take, run_nil, run_cancel, run_cancel_cb]
  · refine ⟨by rw [run_shape3]; rfl, ?_⟩
    intro n hn
    simp only [List.length_cons, List.length_nil] at hn
    interval_cases n <;> simp [List.take, run_nil, run_cb1, run_cb_cancel]

/-- Witness for C1 at the concrete trace where slot 0 completes with 0 and
then slot 1 completes with -28. -/
theorem callback_exactly_once_after_both_witness :
    (aioRun [AioEvent.cb false 0, AioEvent.cb true (-28)]).cbResults.length = 1 ∧
    (aioRun (List.take 1 [AioEvent.cb false 0, AioEvent.cb true (-28)])).cbResults = [] :=
  ⟨(callback_exactly_once_after_both false 0 (-28)
      [AioEvent.cb false 0, AioEvent.cb true (-28)] (by decide)).1,
   (callback_exactly_once_after_both false 0 (-28)
      [AioEvent.cb false 0, AioEvent.cb true (-28)] (by decide)).2 1 (by decide)⟩

/-- C2: with both sub-results drawn from the backend contract (0 for
success, a negative error code for failure), the merged result delivered
to the caller is the sticky first error in completion order: it is 0 iff
both sub-operations succeeded; when the first completion fails its error
is reported; when only the second fails its error is reported; and the
merged result is always one of the two sub-results (never a fabricated
third value). -/
theorem merged_result_first_error (s : Bool) (r r2 : Int) (t : List AioEvent)
    (ht : t ∈ dualTraces s r r2) (hr : r ≤ 0) (hr2 : r2 ≤ 0) :
    (aioRun t).cbResults = [mergeRet r r2] ∧
    (mergeRet r r2 = 0 ↔ r = 0 ∧ r2 = 0) ∧
    (r < 0 → mergeRet r r2 = r) ∧
    (r = 0 → r2 < 0 → mergeRet r r2 = r2) ∧
    (mergeRet r r2 = r ∨ mergeRet r r2 = r2) := by
  have hm : (mergeRet r r2 = 0 ↔ r = 0 ∧ r2 = 0) ∧
      (r < 0 → mergeRet r r2 = r) ∧
      (r = 0 → r2 < 0 → mergeRet r r2 = r2) ∧
      (mergeRet r r2 = r ∨ mergeRet r r2 = r2) := by
    unfold mergeRet; split_ifs <;> omega
  refine ⟨?_, hm⟩
  simp only [dualTraces, List.mem_cons, List.not_mem_nil, or_false] at ht
  rcases ht with rfl | rfl | rfl
  · rw [run_shape1]
  · rw [run_shape2]
  · rw [run_shape3]

/-- Witness for C2: slot 1 completes first with success, slot 0 then fails
with -28 (no space); the merged result is -28, not success. -/
theorem merged_result_first_error_witness :
    (aioRun [AioEvent.cb true 0, AioEvent.cb false (-28)]).cbResults = [mergeRet 0 (-28)] ∧
    (mergeRet 0 (-28) = 0 ↔ (0 : Int) = 0 ∧ (-28 : Int) = 0) ∧
    ((0 : Int) < 0 → mergeRet 0 (-28) = 0) ∧
    ((0 : Int) = 0 → (-28 : Int) < 0 → mergeRet 0 (-28) = -28) ∧
    (mergeRet 0 (-28) = 0 ∨ mergeRet 0 (-28) = -28) :=
  merged_result_first_error true 0 (-28)
    [AioEvent.cb true 0, AioEvent.cb false (-28)] (by decide) (by decide) (by decide)

/-- C3: across every admissible interleaving — no cancellation, cancel
before both completions, or cancel between the two completions — the Dual
Completion Record is released exactly once at the end of the trace, and
the release count never exceeds 1 in any prefix: the cancel path releases
the record itself, and the per-slot path skips its release when the
canceled flag is set. -/
theorem record_released_exactly_once (s : Bool) (r r2 : Int) (t : List AioEvent)
    (ht : t ∈ dualTraces s r r2) :
    (aioRun t).released = 1 ∧ ∀ n, (aioRun (List.take n t)).released ≤ 1 := by
  simp only [dualTraces, List.mem_cons, List.not_mem_nil, or_false] at ht
  rcases ht with rfl | rfl | rfl
  · refine ⟨by rw [run_shape1], ?_⟩
    intro n
    rcases n with _ | _ | n <;>
      simp [List.take, run_nil, run_cb1, run_shape1]
  · refine ⟨by rw [run_shape2], ?_⟩
    intro n
    rcases n with _ | _ | _ | n <;>
      simp [List.take, run_nil, run_cancel, run_cancel_cb, run_shape2]
  · refine ⟨by rw [run_shape3], ?_⟩
    intro n
    rcases n with _ | _ | _ | n <;>
      simp [List.take, run_nil, run_cb1, run_cb_cancel, run_shape3]

/-- Witness for C3 at the trace: cancel with both slots in flight, then
both slots complete with the cancellation-class error -125. -/
theorem record_released_exactly_once_witness :
    (aioRun [AioEvent.cancel, AioEvent.cb false (-125), AioEvent.cb true (-125)]).released = 1 ∧
    (aioRun (List.take 2 [AioEvent.cancel, AioEvent.cb false (-125),
      AioEvent.cb true (-125)])).released ≤ 1 :=
  ⟨(record_released_exactly_once false (-125) (-125)
      [AioEvent.cancel, AioEvent.cb false (-125), AioEvent.cb true (-125)] (by decide)).1,
   (record_released_exactly_once false (-125) (-125)
      [AioEvent.cancel, AioEvent.cb false (-125), AioEvent.cb true (-125)] (by decide)).2 2⟩

/-- C10: along every admissible trace of an issued dual operation the
per-slot completion callback runs exactly twice (once per slot, so at
most twice), the `assert(dcb->count > 0)` at its entry never fails, and
the pending count only ever takes the values 0, 1 and 2. -/
theorem count_bounded_assert_holds (s : Bool) (r r2 : Int) (t : List AioEvent)
    (ht : t ∈ dualTraces s r r2) :
    (aioRun t).assertOk = true ∧
    (t.filter AioEvent.isCb).length = 2 ∧
    ∀ n, (aioRun (List.take n t)).count = 0 ∨ (aioRun (List.take n t)).count = 1 ∨
      (aioRun (List.take n t)).count = 2 := by
  simp only [dualTraces, List.mem_cons, List.not_mem_nil, or_false] at ht
  rcases ht with rfl | rfl | rfl
  · refine ⟨by rw [run_shape1], by simp [AioEvent.isCb], ?_⟩
    intro n
    rcases n with _ | _ | n <;>
      simp [List.take, run_nil, run_cb1, run_shape1]
  · refine ⟨by rw [run_shape2], by simp [AioEvent.isCb], ?_⟩
    intro n
    rcases n with _ | _ | _ | n <;>
      simp [List.take, run_nil, run_cancel, run_cancel_cb, run_shape2]
  · refine ⟨by rw [run_shape3], by simp [AioEvent.isCb], ?_⟩
    intro n
    rcases n with _ | _ | _ | n <;>
      simp [List.take, run_nil, run_cb1, run_cb_cancel, run_shape3]

/-- Witness for C10 at the trace: slot 1 fails with -5, the client cancels,
then slot 0 completes with -125. -/
theorem count_bounded_assert_holds_witness :
    (aioRun [AioEvent.cb true (-5), AioEvent.cancel, AioEvent.cb false (-125)]).assertOk = true ∧
    ([AioEvent.cb true (-5), AioEvent.cancel, AioEvent.cb false (-125)].filter
      AioEvent.isCb).length = 2 ∧
    ((aioRun (List.take 2 [AioEvent.cb true (-5), AioEvent.cancel,
        AioEvent.cb false (-125)])).count = 0 ∨
     (aioRun (List.take 2 [AioEvent.cb true (-5), AioEvent.cancel,
        AioEvent.cb false (-125)])).count = 1 ∨
     (aioRun (List.take 2 [AioEvent.cb true (-5), AioEvent.cancel,
        AioEvent.cb false (-125)])).count = 2) :=
  ⟨(count_bounded_assert_holds true (-5) (-125)
      [AioEvent.cb true (-5), AioEvent.cancel, AioEvent.cb false (-125)] (by decide)).1,
   (count_bounded_assert_holds true (-5) (-125)
      [AioEvent.cb true (-5), AioEvent.cancel, AioEvent.cb false (-125)] (by decide)).2.1,
   (count_bounded_assert_holds true (-5) (-125)
      [AioEvent.cb true (-5), AioEvent.cancel, AioEvent.cb false (-125)] (by decide)).2.2 2⟩


/-! ## Backing-chain, facade-routing and open theorems -/

lemma hupd_same (h : Heap) (i : Nat) (b : BlockDriverState) : hupd h i b i = b := by
  simp [hupd]

lemma hupd_other (h : Heap) (i j : Nat) (b : BlockDriverState) (hij : j ≠ i) :
    hupd h i b j = h j := by
  simp [hupd, hij]

/-- C4 (amended): after `blkmirror_rebind` runs on a mirror whose nominal
backing slot holds the source device, the mirror's nominal backing
reference and the target's nominal backing reference both equal the
source's original backing reference, the source handle has moved into the
mirror's opaque slot, and, whenever the hoisted backing reference is
non-null, that device is marked read-only-forbidding-commit
(`keep_read_only`).  Unlike the claim's wording, the source's own nominal
backing reference is NOT nulled by rebind — it keeps aliasing the
original backing device (it is cleared only later, in `blkmirror_close`);
see the counterexample `rebind_source_backing_cex`. -/
theorem rebind_postconditions (h : Heap) (bs src f : Nat) (sb : Option Nat)
    (hsrc : (h bs).backing_hd = some src) (hfile : (h bs).file = some f)
    (hsb : (h src).backing_hd = sb)
    (h1 : bs ≠ src) (h2 : bs ≠ f) (h3 : src ≠ f)
    (h4 : ∀ b, sb = some b → b ≠ bs ∧ b ≠ f ∧ b ≠ src) :
    ((blkmirror_rebind h bs) bs).backing_hd = sb ∧
    ((blkmirror_rebind h bs) f).backing_hd = sb ∧
    ((blkmirror_rebind h bs) bs).opq = some src ∧
    ((blkmirror_rebind h bs) src).backing_hd = sb ∧
    (∀ b, sb = some b → ((blkmirror_rebind h bs) b).keep_read_only = true) := by
  have h1s := Ne.symm h1
  have h2s := Ne.symm h2
  have h3s := Ne.symm h3
  unfold blkmirror_rebind
  rcases sb with _ | b
  · simp only [hsrc, hsb]
    simp [hupd, h1, h2, h3, h1s, h2s, h3s, hfile, hsb]
  · obtain ⟨hb1, hb2, hb3⟩ := h4 b rfl
    have hb1s := Ne.symm hb1
    have hb2s := Ne.symm hb2
    have hb3s := Ne.symm hb3
    simp only [hsrc, hsb]
    simp [hupd, h1, h2, h3, h1s, h2s, h3s, hb1, hb2, hb3, hb1s, hb2s, hb3s, hfile, hsb]


/-- C4 counterexample: on the concrete heap where mirror 0 holds source 1
in its nominal backing slot and source 1 has backing device 3, the
source's nominal backing reference after rebind is still `some 3`, not
null — refuting the claim's "source's own nominal backing reference is
null (moved, not duplicated)". -/
theorem rebind_source_backing_cex :
    (rebindExampleHeap 0).backing_hd = some 1 ∧
    ((blkmirror_rebind rebindExampleHeap 0) 1).backing_hd = some 3 ∧
    ((blkmirror_rebind rebindExampleHeap 0) 1).backing_hd ≠ none := by
  decide

/-- Witness for the amended C4 on the concrete four-device heap. -/
theorem rebind_postconditions_witness :
    ((blkmirror_rebind rebindExampleHeap 0) 0).backing_hd = some 3 ∧
    ((blkmirror_rebind rebindExampleHeap 0) 2).backing_hd = some 3 ∧
    ((blkmirror_rebind rebindExampleHeap 0) 0).opq = some 1 ∧
    ((blkmirror_rebind rebindExampleHeap 0) 3).keep_read_only = true :=
  ⟨(rebind_postconditions rebindExampleHeap 0 1 2 (some 3) (by decide) (by decide) (by decide)
      (by decide) (by decide) (by decide) (by intro b hb; cases hb; decide)).1,
   (rebind_postconditions rebindExampleHeap 0 1 2 (some 3) (by decide) (by decide) (by decide)
      (by decide) (by decide) (by decide) (by intro b hb; cases hb; decide)).2.1,
   (rebind_postconditions rebindExampleHeap 0 1 2 (some 3) (by decide) (by decide) (by decide)
      (by decide) (by decide) (by decide) (by intro b hb; cases hb; decide)).2.2.1,
   (rebind_postconditions rebindExampleHeap 0 1 2 (some 3) (by decide) (by decide) (by decide)
      (by decide) (by decide) (by decide) (by intro b hb; cases hb; decide)).2.2.2.2 3 rfl⟩

/-- C5: `blkmirror_change_backing_file` always issues the generic
backing-file change to the target (`bs->file`) first, and whenever the
target-side change fails its error is returned immediately, the call
trace shows the source-side change was never attempted, and both the
source's backing metadata and the mirror's own reported backing metadata
are exactly what they were before the call. -/
theorem change_backing_target_first_and_fail_preserves (oracle : Nat → Int) (h : Heap)
    (bs src f : Nat) (p fmt : Option (List Char))
    (hop : (h bs).opq = some src) (hf : (h bs).file = some f)
    (h1 : bs ≠ src) (h2 : bs ≠ f) (h3 : src ≠ f) :
    ((blkmirror_change_backing_file oracle h bs p fmt).2.2.head? = some (ChgEvent.chg f)) ∧
    (oracle f < 0 →
      (blkmirror_change_backing_file oracle h bs p fmt).1 = oracle f ∧
      (blkmirror_change_backing_file oracle h bs p fmt).2.2 = [ChgEvent.chg f] ∧
      ((blkmirror_change_backing_file oracle h bs p fmt).2.1 src).backing_file
        = (h src).backing_file ∧
      ((blkmirror_change_backing_file oracle h bs p fmt).2.1 src).backing_format
        = (h src).backing_format ∧
      ((blkmirror_change_backing_file oracle h bs p fmt).2.1 bs).backing_file
        = (h bs).backing_file ∧
      ((blkmirror_change_backing_file oracle h bs p fmt).2.1 bs).backing_format
        = (h bs).backing_format) := by
  have h1s := Ne.symm h1
  have h2s := Ne.symm h2
  have h3s := Ne.symm h3
  unfold blkmirror_change_backing_file bdrv_change_backing_file
  constructor
  · simp only [hop]
    simp [hupd, h1, h2, h3, h1s, h2s, h3s, hf]
    split_ifs <;> simp
  · intro hfail
    simp only [hop]
    simp [hupd, h1, h2, h3, h1s, h2s, h3s, hf, hfail]

/-- C6: the final `pstrcpy` pair that overwrites the mirror's reported
backing metadata runs iff both the target-side and the source-side
generic changes succeed; when the source-side change fails after the
target-side succeeded, the source's error is returned and the mirror's
reported metadata fields are unchanged; on full success they hold the new
path and format. -/
theorem change_backing_meta_iff_both_succeed (oracle : Nat → Int) (h : Heap)
    (bs src f : Nat) (p fmt : Option (List Char))
    (hop : (h bs).opq = some src) (hf : (h bs).file = some f)
    (h1 : bs ≠ src) (h2 : bs ≠ f) (h3 : src ≠ f) :
    (ChgEvent.setMirrorMeta ∈ (blkmirror_change_backing_file oracle h bs p fmt).2.2 ↔
      ¬ oracle f < 0 ∧ ¬ oracle src < 0) ∧
    (¬ oracle f < 0 → oracle src < 0 →
      (blkmirror_change_backing_file oracle h bs p fmt).1 = oracle src ∧
      ((blkmirror_change_backing_file oracle h bs p fmt).2.1 bs).backing_file
        = (h bs).backing_file ∧
      ((blkmirror_change_backing_file oracle h bs p fmt).2.1 bs).backing_format
        = (h bs).backing_format) ∧
    (¬ oracle f < 0 → ¬ oracle src < 0 →
      (blkmirror_change_backing_file oracle h bs p fmt).1 = 0 ∧
      ((blkmirror_change_backing_file oracle h bs p fmt).2.1 bs).backing_file = p.getD [] ∧
      ((blkmirror_change_backing_file oracle h bs p fmt).2.1 bs).backing_format
        = fmt.getD []) := by
  have h1s := Ne.symm h1
  have h2s := Ne.symm h2
  have h3s := Ne.symm h3
  unfold blkmirror_change_backing_file bdrv_change_backing_file
  refine ⟨?_, fun hok hfail => ?_, fun hok hok2 => ?_⟩
  · simp only [hop]
    simp [hupd, h1, h2, h3, h1s, h2s, h3s, hf]
    split_ifs <;> simp_all
  · simp only [hop]
    simp [hupd, h1, h2, h3, h1s, h2s, h3s, hf, hok, hfail]
  · simp only [hop]
    simp [hupd, h1, h2, h3, h1s, h2s, h3s, hf, hok, hok2]

/-- C9: flush and read delegate solely to the source device stored in the
opaque slot and never touch the target, while getlength and is_allocated
delegate solely to the target device stored in `bs->file` and never touch
the source. -/
theorem facade_routing (h : Heap) (bs src f : Nat) (sector n : Int)
    (hop : (h bs).opq = some src) (hf : (h bs).file = some f) (hne : src ≠ f) :
    blkmirror_co_flush h bs = [(src, Action.flush)] ∧
    blkmirror_aio_readv h bs sector n = [(src, Action.readv sector n)] ∧
    blkmirror_getlength h bs = [(f, Action.getlength)] ∧
    blkmirror_co_is_allocated h bs sector n = [(f, Action.is_allocated sector n)] ∧
    (∀ a, (f, a) ∉ blkmirror_co_flush h bs) ∧
    (∀ a, (f, a) ∉ blkmirror_aio_readv h bs sector n) ∧
    (∀ a, (src, a) ∉ blkmirror_getlength h bs) ∧
    (∀ a, (src, a) ∉ blkmirror_co_is_allocated h bs sector n) := by
  simp [blkmirror_co_flush, blkmirror_aio_readv, blkmirror_getlength,
    blkmirror_co_is_allocated, bdrv_co_flush, bdrv_aio_readv, bdrv_getlength,
    bdrv_is_allocated, hop, hf, hne, Ne.symm hne]


def chgExampleHeap : Heap := fun i =>
  if i = 0 then ⟨some 3, some 2, some 1, false, [], []⟩
  else ⟨none, none, none, false, [], []⟩

/-- Witness for C5: target-side change fails with -28 on the concrete
heap; the source's metadata round-trips unchanged. -/
theorem change_backing_target_first_and_fail_preserves_witness :
    ((blkmirror_change_backing_file (fun d => if d = 2 then (-28 : Int) else 0)
        chgExampleHeap 0 (some ("new".toList)) (some ("raw".toList))).2.2.head?
      = some (ChgEvent.chg 2)) ∧
    (blkmirror_change_backing_file (fun d => if d = 2 then (-28 : Int) else 0)
        chgExampleHeap 0 (some ("new".toList)) (some ("raw".toList))).1 = -28 ∧
    ((blkmirror_change_backing_file (fun d => if d = 2 then (-28 : Int) else 0)
        chgExampleHeap 0 (some ("new".toList)) (some ("raw".toList))).2.1 1).backing_file
      = (chgExampleHeap 1).backing_file := by
  have hmain := change_backing_target_first_and_fail_preserves
    (fun d => if d = 2 then (-28 : Int) else 0) chgExampleHeap 0 1 2
    (some ("new".toList)) (some ("raw".toList))
    (by decide) (by decide) (by decide) (by decide) (by decide)
  have h2 := hmain.2 (by decide)
  exact ⟨hmain.1, h2.1.trans (by decide), h2.2.2.1⟩

/-- Witness for C6: target succeeds, source fails with -30. -/
theorem change_backing_meta_iff_both_succeed_witness :
    (ChgEvent.setMirrorMeta ∈ (blkmirror_change_backing_file
        (fun d => if d = 1 then (-30 : Int) else 0) chgExampleHeap 0
        (some ("new".toList)) (some ("raw".toList))).2.2 ↔
      ¬ (if (2 : Nat) = 1 then (-30 : Int) else 0) < 0 ∧
      ¬ (if (1 : Nat) = 1 then (-30 : Int) else 0) < 0) ∧
    (blkmirror_change_backing_file (fun d => if d = 1 then (-30 : Int) else 0)
        chgExampleHeap 0 (some ("new".toList)) (some ("raw".toList))).1 = -30 ∧
    ((blkmirror_change_backing_file (fun d => if d = 1 then (-30 : Int) else 0)
        chgExampleHeap 0 (some ("new".toList)) (some ("raw".toList))).2.1 0).backing_file
      = (chgExampleHeap 0).backing_file := by
  have hmain := change_backing_meta_iff_both_succeed
    (fun d => if d = 1 then (-30 : Int) else 0) chgExampleHeap 0 1 2
    (some ("new".toList)) (some ("raw".toList))
    (by decide) (by decide) (by decide) (by decide) (by decide)
  have h2 := hmain.2.1 (by decide) (by decide)
  exact ⟨hmain.1, h2.1, h2.2.1⟩

/-- Witness for C9 on the concrete heap (source 1, target 2). -/
theorem facade_routing_witness :
    blkmirror_co_flush chgExampleHeap 0 = [(1, Action.flush)] ∧
    blkmirror_aio_readv chgExampleHeap 0 7 3 = [(1, Action.readv 7 3)] ∧
    blkmirror_getlength chgExampleHeap 0 = [(2, Action.getlength)] ∧
    blkmirror_co_is_allocated chgExampleHeap 0 7 3 = [(2, Action.is_allocated 7 3)] ∧
    (2, Action.flush) ∉ blkmirror_co_flush chgExampleHeap 0 ∧
    (1, Action.getlength) ∉ blkmirror_getlength chgExampleHeap 0 := by
  have hmain := facade_routing chgExampleHeap 0 1 2 7 3 (by decide) (by decide) (by decide)
  exact ⟨hmain.1, hmain.2.1, hmain.2.2.1, hmain.2.2.2.1,
    hmain.2.2.2.2.1 Action.flush, hmain.2.2.2.2.2.2.1 Action.getlength⟩

lemma takeWhile_neColon_append (l rest : List Char) (hc : ∀ c ∈ l, c ≠ ':') :
    (l ++ ':' :: rest).takeWhile (· != ':') = l := by
  induction l with
  | nil => simp [List.takeWhile]
  | cons a l ih =>
      have ha : (a != ':') = true := by
        simpa using hc a (List.mem_cons_self a l)
      simp [List.takeWhile_cons, ha,
        ih (fun c hcm => hc c (List.mem_cons_of_mem a hcm))]

lemma dropWhile_neColon_append (l rest : List Char) (hc : ∀ c ∈ l, c ≠ ':') :
    (l ++ ':' :: rest).dropWhile (· != ':') = ':' :: rest := by
  induction l with
  | nil => simp [List.dropWhile]
  | cons a l ih =>
      have ha : (a != ':') = true := by
        simpa using hc a (List.mem_cons_self a l)
      simp [List.dropWhile_cons, ha,
        ih (fun c hcm => hc c (List.mem_cons_of_mem a hcm))]

lemma strstart_append (pfx x : List Char) : strstart (pfx ++ x) pfx = some x := by
  have hp : pfx.isPrefixOf (pfx ++ x) = true := by
    rw [List.isPrefixOf_iff_prefix]
    exact List.prefix_append pfx x
  simp [strstart, hp]

/-- C8: `blkmirror_open` fails with -EINVAL (-22) for every descriptor
that does not begin with the `blkmirror:` lead-in, and for every
descriptor whose remainder has a colon-separated first field naming a
format that is not in the whitelist it reports the invalid "format"
parameter, returns -EINVAL, and never creates the target device. -/
theorem open_descriptor_validation (wl : List (List Char)) (oracle : List Char → Int)
    (flags : OpenFlags) :
    (∀ filename : List Char, ("blkmirror:".toList).isPrefixOf filename = false →
      (blkmirror_open wl oracle flags filename).ret = -22) ∧
    (∀ fmtPart rest : List Char, (∀ c ∈ fmtPart, c ≠ ':') → fmtPart ∉ wl →
      (blkmirror_open wl oracle flags
        ("blkmirror:".toList ++ (fmtPart ++ ':' :: rest))).ret = -22 ∧
      (blkmirror_open wl oracle flags
        ("blkmirror:".toList ++ (fmtPart ++ ':' :: rest))).err_param
        = some ("format".toList) ∧
      (blkmirror_open wl oracle flags
        ("blkmirror:".toList ++ (fmtPart ++ ':' :: rest))).file_assigned = false) := by
  constructor
  · intro filename hnp
    have hnp2 : ¬ ("blkmirror:".toList <+: filename) := by
      rw [← List.isPrefixOf_iff_prefix, hnp]
      exact Bool.false_ne_true
    have hnp3 : ¬ (['b', 'l', 'k', 'm', 'i', 'r', 'r', 'o', 'r', ':'] <+: filename) := by
      simpa using hnp2
    unfold blkmirror_open
    simp [strstart, hnp3]
  · intro fmtPart rest hc hmem
    unfold blkmirror_open
    rw [strstart_append]
    simp only [takeWhile_neColon_append fmtPart rest hc,
      dropWhile_neColon_append fmtPart rest hc]
    simp [hmem]

/-- C7: whenever `blkmirror_open` returns an error, no opened target
handle remains reachable: every failing path yields a result whose
`target_opened` is false (the generic open, modelled from the spec's
collaborator contract, unwinds its own partial state on failure, so the
only thing left behind is the unopened fresh device shell). -/
theorem open_failure_leaves_no_opened_target (wl : List (List Char))
    (oracle : List Char → Int) (flags : OpenFlags) (filename : List Char)
    (hfail : (blkmirror_open wl oracle flags filename).ret < 0) :
    (blkmirror_open wl oracle flags filename).target_opened = false := by
  unfold blkmirror_open at hfail ⊢
  cases hss : strstart filename ("blkmirror:".toList)
  · simp [hss]
  · simp only [hss] at hfail ⊢
    split_ifs at hfail ⊢ <;> simp_all


/-- Witness for C7: the target open oracle fails with -5 on a well-formed
descriptor. -/
theorem open_failure_leaves_no_opened_target_witness :
    (blkmirror_open [] (fun _ => -5) ⟨false, false, false, 0⟩
      ("blkmirror:x".toList)).target_opened = false :=
  open_failure_leaves_no_opened_target [] (fun _ => -5) ⟨false, false, false, 0⟩
    ("blkmirror:x".toList) (by decide)

/-- Witness for C8: a descriptor without the lead-in, and a descriptor
whose format "vmdk" is not whitelisted. -/
theorem open_descriptor_validation_witness :
    (blkmirror_open [] (fun _ => 0) ⟨false, false, false, 0⟩ ("qcow2:x".toList)).ret = -22 ∧
    (blkmirror_open [] (fun _ => 0) ⟨false, false, false, 0⟩
      ("blkmirror:".toList ++ ("vmdk".toList ++ ':' :: "x".toList))).ret = -22 ∧
    (blkmirror_open [] (fun _ => 0) ⟨false, false, false, 0⟩
      ("blkmirror:".toList ++ ("vmdk".toList ++ ':' :: "x".toList))).err_param
      = some ("format".toList) ∧
    (blkmirror_open [] (fun _ => 0) ⟨false, false, false, 0⟩
      ("blkmirror:".toList ++ ("vmdk".toList ++ ':' :: "x".toList))).file_assigned = false :=
  ⟨(open_descriptor_validation [] (fun _ => 0) ⟨false, false, false, 0⟩).1
      ("qcow2:x".toList) (by decide),
   ((open_descriptor_validation [] (fun _ => 0) ⟨false, false, false, 0⟩).2
      ("vmdk".toList) ("x".toList) (by decide) (by decide)).1,
   ((open_descriptor_validation [] (fun _ => 0) ⟨false, false, false, 0⟩).2
      ("vmdk".toList) ("x".toList) (by decide) (by decide)).2.1,
   ((open_descriptor_validation [] (fun _ => 0) ⟨false, false, false, 0⟩).2
      ("vmdk".toList) ("x".toList) (by decide) (by decide)).2.2⟩

end Blkmirror
